import Mathlib

/-!
Verification of the financial-PDF extraction pipeline
(`pdf_processor.py`, `bedrock_client.py`, `excel_generator.py`,
`bot_interface.py`, `app.py`) against its natural-language specification.

Modelling conventions:
* Python `str` is modelled as `List Char` (`PyStr`); `str.strip()` is
  `pyStrip`; `sep.join(parts)` is `pyJoin`.
* PDF bytes are `List Nat`.
* The external libraries (pdfplumber, PyMuPDF, fitz page access, tesseract)
  are abstract functions gathered in `PdfLibs`, mirroring the spec's
  external-interface contracts.  Each helper in the Python source catches
  its own exceptions and returns a degraded value, so the helpers are total:
  `pdfplumber`/`pymupdf` return the extracted text (possibly empty on
  failure), `fitzOpen` returns `none` when `fitz.open` raises, and
  `ocrPage b i zoom` returns tesseract word/confidence rows for page `i`
  rasterized at the given zoom matrix.
* Rational numbers stand for Python floats; list folds stand for the
  Python loops, with an extra trace field recording which pages were
  rasterized (resp. which strategies were attempted), so that
  "never attempted" style properties are statable.
* Wall-clock timing is not modelled: `processing_time` is always 0.
-/

abbrev PyStr := List Char

abbrev PdfBytes := List Nat

/-- Python `s.strip()`: remove leading and trailing whitespace. -/
def pyStrip (s : PyStr) : PyStr :=
  ((s.dropWhile Char.isWhitespace).reverse.dropWhile Char.isWhitespace).reverse

/-- Python `sep.join(parts)`. -/
def pyJoin (sep : PyStr) (parts : List PyStr) : PyStr :=
  List.intercalate sep parts

/-- Result dictionary built by `PDFProcessor.extract_text_from_pdf`
(`pdf_processor.py` lines 146-156). -/
structure ExtractionResult where
  filename : String
  text : PyStr
  page_count : Nat
  extraction_method : String
  processing_time : ℚ
  has_text : Bool
  has_images : Bool
  confidence_score : ℚ
  errors : List String
deriving DecidableEq

/-- The initial result dictionary (`pdf_processor.py` lines 146-156). -/
def init_result (fn : String) : ExtractionResult :=
  { filename := fn, text := [], page_count := 0, extraction_method := "",
    processing_time := 0, has_text := false, has_images := false,
    confidence_score := 0, errors := [] }

/-- Abstract interfaces of the external PDF libraries, per the spec's
external-interface section.  `ocrPage b i m` is the tesseract
`image_to_data` output (word, confidence) for page `i` of `b` rasterized
at zoom matrix `m`; words and confidences are positionally paired as in
the parallel arrays `ocr_data['text']` / `ocr_data['conf']`. -/
structure PdfLibs where
  pdfplumber : PdfBytes → PyStr
  pymupdf : PdfBytes → PyStr
  fitzOpen : PdfBytes → Option Nat
  ocrPage : PdfBytes → Nat → ℚ × ℚ → List (PyStr × Int)

/-- The fixed rasterization matrix `fitz.Matrix(2.0, 2.0)`
(`pdf_processor.py` line 264). -/
def ocr_zoom : ℚ × ℚ := (2, 2)

/-- The fields of `ocr_result` that `_extract_with_ocr` fills in
(`pdf_processor.py` lines 245-252); `extraction_method` is always
`"ocr"` and `has_images` always `True` there, so they are left implicit. -/
structure OcrPart where
  text : PyStr
  has_text : Bool
  confidence_score : ℚ
  errors : List String
deriving DecidableEq

/-- Words of page `i` kept by the OCR loop (`pdf_processor.py` lines
278-283): the word must be non-blank after stripping and its confidence
must exceed 30.  The Python loop appends the word to `page_text_parts`
and its confidence to `confidences` under exactly these two guards. -/
def keptWords (L : PdfLibs) (b : PdfBytes) (i : Nat) : List (PyStr × Int) :=
  (L.ocrPage b i ocr_zoom).filter (fun w => decide (pyStrip w.1 ≠ [] ∧ 30 < w.2))

/-- Python `sum(confidences) / len(confidences)` (`pdf_processor.py` line 290). -/
def listAvg (confs : List Int) : ℚ :=
  ((confs.map (fun (c : Int) => (c : ℚ))).sum) / (confs.length : ℚ)

/-- Loop state of `_extract_with_ocr` (`text_parts`, `total_confidence`,
`page_count`), plus a trace of the rasterization calls made. -/
structure OcrState where
  text_parts : List PyStr
  total_confidence : ℚ
  page_count : Nat
  calls : List (Nat × (ℚ × ℚ))
deriving DecidableEq

/-- One iteration of the page loop of `_extract_with_ocr`
(`pdf_processor.py` lines 260-292). -/
def ocrPageStep (L : PdfLibs) (b : PdfBytes) (s : OcrState) (i : Nat) : OcrState :=
  let kept := keptWords L b i
  let page_text_parts := kept.map (fun w => w.1)
  let confidences := kept.map (fun w => w.2)
  let s1 : OcrState := { s with calls := s.calls ++ [(i, ocr_zoom)] }
  if page_text_parts ≠ ([] : List PyStr) then
    let s2 := { s1 with text_parts := s1.text_parts ++ [pyJoin [' '] page_text_parts] }
    if confidences ≠ ([] : List Int) then
      { s2 with total_confidence := s2.total_confidence + listAvg confidences,
                page_count := s2.page_count + 1 }
    else s2
  else s1

/-- `PDFProcessor._extract_with_ocr` (`pdf_processor.py` lines 243-310),
paired with the trace of `(page, zoom)` rasterization calls.  A `none`
from `fitzOpen` models `fitz.open` raising, caught by the outer
`except` which appends an `OCR failed` error. -/
def extract_with_ocr (L : PdfLibs) (b : PdfBytes) : OcrPart × List (Nat × (ℚ × ℚ)) :=
  match L.fitzOpen b with
  | none => ({ text := [], has_text := false, confidence_score := 0,
               errors := ["OCR failed"] }, [])
  | some n =>
    let s := (List.range (min n 10)).foldl (ocrPageStep L b) ⟨[], 0, 0, []⟩
    if s.text_parts ≠ [] then
      ({ text := pyJoin ['\n'] s.text_parts, has_text := true,
         confidence_score :=
           if s.page_count > 0 then s.total_confidence / (s.page_count : ℚ) / 100 else 0,
         errors := [] }, s.calls)
    else
      ({ text := [], has_text := false, confidence_score := 0,
         errors := ["OCR could not extract readable text"] }, s.calls)

/-- Python `result.update(ocr_result)` (`pdf_processor.py` line 185):
the OCR dictionary replaces the corresponding keys of `result`. -/
def applyOcr (r : ExtractionResult) (o : OcrPart) : ExtractionResult :=
  { r with text := o.text, extraction_method := "ocr", has_text := o.has_text,
           has_images := true, confidence_score := o.confidence_score,
           errors := o.errors }

/-- The three-way strategy cascade of `extract_text_from_pdf`
(`pdf_processor.py` lines 158-186), paired with the list of strategies
attempted.  A text-layer strategy wins iff its output is truthy and its
stripped length exceeds 100 (`if text_content and len(text_content.strip()) > 100`). -/
def cascade (L : PdfLibs) (b : PdfBytes) (fn : String) : ExtractionResult × List String :=
  let r0 := init_result fn
  let t1 := L.pdfplumber b
  if t1 ≠ [] ∧ 100 < (pyStrip t1).length then
    ({ r0 with text := t1, extraction_method := "pdfplumber", has_text := true,
               confidence_score := 95/100 }, ["pdfplumber"])
  else
    let t2 := L.pymupdf b
    if t2 ≠ [] ∧ 100 < (pyStrip t2).length then
      ({ r0 with text := t2, extraction_method := "pymupdf", has_text := true,
                 confidence_score := 90/100 }, ["pdfplumber", "pymupdf"])
    else
      (applyOcr r0 (extract_with_ocr L b).1, ["pdfplumber", "pymupdf", "ocr"])

/-- Best-effort page counting (`pdf_processor.py` lines 188-194): on
success the count is stored, on failure the result is left unchanged. -/
def pageStep (L : PdfLibs) (b : PdfBytes) (r : ExtractionResult) : ExtractionResult :=
  match L.fitzOpen b with
  | some n => { r with page_count := n }
  | none => r

/-- The error string appended by the sufficiency check
(`pdf_processor.py` line 199). -/
def insufficientMsg : String := "Insufficient text extracted from PDF"

/-- The final sufficiency check (`pdf_processor.py` lines 198-200):
`if not result['text'] or len(result['text'].strip()) < 50`. -/
def finalize (r : ExtractionResult) : ExtractionResult :=
  if r.text = [] ∨ (pyStrip r.text).length < 50 then
    { r with errors := r.errors ++ [insufficientMsg], confidence_score := 1/10 }
  else r

/-- `PDFProcessor.extract_text_from_pdf` (`pdf_processor.py` lines
134-211) with its strategy trace: cascade, then page counting, then the
sufficiency downgrade. -/
def extract_text_from_pdf_traced (L : PdfLibs) (b : PdfBytes) (fn : String) :
    ExtractionResult × List String :=
  let c := cascade L b fn
  (finalize (pageStep L b c.1), c.2)

/-- The result dictionary returned by `extract_text_from_pdf`. -/
def extract_text_from_pdf (L : PdfLibs) (b : PdfBytes) (fn : String) : ExtractionResult :=
  (extract_text_from_pdf_traced L b fn).1

/-- The list of extraction strategies invoked by `extract_text_from_pdf`. -/
def attempted_strategies (L : PdfLibs) (b : PdfBytes) (fn : String) : List String :=
  (extract_text_from_pdf_traced L b fn).2

/-! Batch processing (`pdf_processor.py` lines 312-374).

The worker pool submits one task per key and collects `future.result`
per future in submission order (Python dict iteration preserves insertion
order).  A unit of work is modelled as `runSingle : String → Except String
ExtractionResult`; an `Except.error` covers both a timeout of
`future.result(timeout=300)` and any exception raised while processing
(the inner catch in `_process_single_pdf` builds the identical
placeholder dictionary). -/

/-- Python `os.path.basename`. -/
def pyBasename (k : String) : String :=
  (k.splitOn ("/")).getLastD k

/-- The per-item timeout, in seconds, of `future.result(timeout=300)`
(`pdf_processor.py` line 337); wall-clock expiry itself is modelled as an
`Except.error` outcome of the unit of work. -/
def batch_item_timeout : Nat := 300

/-- The placeholder dictionary appended when processing a key fails
(`pdf_processor.py` lines 342-349). -/
structure PlaceholderResult where
  filename : String
  key : String
  text : PyStr
  error : String
  processing_time : ℚ
  confidence_score : ℚ
deriving DecidableEq

def mkPlaceholder (k e : String) : PlaceholderResult :=
  { filename := pyBasename k, key := k, text := [], error := e,
    processing_time := 0, confidence_score := 0 }

/-- An entry of the list returned by `process_multiple_pdfs`: either the
extraction result (with its S3 key attached, `pdf_processor.py` line 361)
or the placeholder failure dictionary. -/
inductive BatchEntry where
  | success (key : String) (r : ExtractionResult)
  | failure (p : PlaceholderResult)
deriving DecidableEq

/-- `PDFProcessor.process_multiple_pdfs` (`pdf_processor.py` lines 312-351). -/
def process_multiple_pdfs (runSingle : String → Except String ExtractionResult)
    (keys : List String) : List BatchEntry :=
  keys.map (fun k =>
    match runSingle k with
    | Except.ok r => BatchEntry.success k r
    | Except.error e => BatchEntry.failure (mkPlaceholder k e))

/-! Attribute extraction (`bedrock_client.py`).

The Bedrock invocation plus JSON decoding of the response body is the
library boundary: `invoke : Except String Json` is `Except.ok` of the
parsed model output (a JSON-decode failure recovered by
`_extract_json_from_text` also lands here, possibly as the error-marker
object), and `Except.error` when `invoke_model` raises `ClientError` or
any other exception (`bedrock_client.py` lines 95-100). -/

/-- JSON values as passed around by `bedrock_client.py`. -/
inductive Json where
  | null
  | jbool (b : Bool)
  | num (q : ℚ)
  | str (s : String)
  | arr (xs : List Json)
  | obj (kvs : List (String × Json))

/-- Python `d.get(k)` on a JSON object (objects built here have unique keys). -/
def jGet (j : Json) (k : String) : Option Json :=
  match j with
  | Json.obj kvs => kvs.lookup k
  | _ => none

/-- Python dictionary assignment `d[k] = v`: overwrite in place if the key
exists, else append. -/
def dictSet (d : List (String × Json)) (k : String) (v : Json) :
    List (String × Json) :=
  if d.any (fun kv => kv.1 == k) then
    d.map (fun kv => if kv.1 == k then (k, v) else kv)
  else d ++ [(k, v)]

/-- One attribute of the extraction schema (`attributes_config` entries,
`bedrock_client.py` lines 177-180). -/
structure AttrConfig where
  name : String
  description : String
  data_type : String
  required : Bool

/-- The per-attribute dictionary of the fallback response
(`bedrock_client.py` lines 307-311). -/
def emptyAttrValue : Json :=
  Json.obj [("value", Json.null), ("confidence", Json.num 0),
            ("source_text", Json.str "")]

/-- The `empty_attributes` dictionary built by the loop of
`_get_empty_attributes_response` (`bedrock_client.py` lines 305-311). -/
def buildAttrDict (cfg : List AttrConfig) : List (String × Json) :=
  cfg.foldl (fun d a => dictSet d a.name emptyAttrValue) []

/-- `BedrockClient._get_empty_attributes_response`
(`bedrock_client.py` lines 303-321). -/
def get_empty_attributes_response (cfg : List AttrConfig) : Json :=
  Json.obj [
    ("extraction_metadata", Json.obj [
      ("processing_date", Json.str ""),
      ("confidence_score", Json.num 0),
      ("extraction_method", Json.str "bedrock_claude"),
      ("error", Json.str "Extraction failed")]),
    ("extracted_attributes", Json.obj (buildAttrDict cfg))]

/-- `BedrockClient.extract_attributes` (`bedrock_client.py` lines 30-100):
on a successfully parsed model response the parsed data is returned
verbatim; on a `ClientError` or any other exception the schema-shaped
fallback is returned. -/
def extract_attributes (invoke : Except String Json) (cfg : List AttrConfig) : Json :=
  match invoke with
  | Except.ok j => j
  | Except.error _ => get_empty_attributes_response cfg

/-- The `extracted_attributes` object of a response, as read by the
downstream consumers (`excel_generator.py` line 473, `bot_interface.py`
line 260). -/
def extractedAttrs (j : Json) : List (String × Json) :=
  match jGet j ("extracted_attributes") with
  | some (Json.obj kvs) => kvs
  | _ => []

/-- The attribute dictionary for one attribute name (downstream
`extracted_attrs.items()` access), `Json.null` when absent. -/
def readAttr (j : Json) (name : String) : Json :=
  ((extractedAttrs j).lookup name).getD Json.null

/-- Python `attr_data.get(k, 0)` for a numeric field
(`excel_generator.py` line 479). -/
def readNum (j : Json) (k : String) : ℚ :=
  match jGet j k with
  | some (Json.num q) => q
  | _ => 0

/-- Python `attr_data.get('confidence_breakdown', {}).get(k, 0)`
(`excel_generator.py` lines 480, 501-504). -/
def readBreak (attr : Json) (k : String) : ℚ :=
  match jGet attr ("confidence_breakdown") with
  | some bd => readNum bd k
  | none => 0

/-- The `error` field of `extraction_metadata`. -/
def metaError (j : Json) : Option Json :=
  match jGet j "extraction_metadata" with
  | some m => jGet m ("error")
  | none => none

/-- The weighted-confidence formula that the system prompt instructs the
model to apply (`bedrock_client.py` line 250, repeated in
`excel_generator.py` line 418 and `app.py` line 232). -/
def weightedConfidence (tc em cm fv : ℚ) : ℚ :=
  tc * (25/100) + em * (30/100) + cm * (25/100) + fv * (20/100)

/-! Quality banding.

`app.py` line 193 colors each per-document confidence score for the
download list; the emoji circles are rendered here as the strings
`"green"`, `"yellow"`, `"red"`.  `bot_interface.py` lines 282-287 band
the average attribute confidence of the batch into `data_quality`. -/

/-- The `confidence_color` expression of `app.py` line 193. -/
def confidence_color (confidence : ℚ) : String :=
  if confidence > 8/10 then "green"
  else if confidence > 5/10 then "yellow"
  else "red"

/-- The `data_quality` banding of `BotInterface._check_data_availability`
(`bot_interface.py` lines 282-287), as a function of the average
confidence. -/
def data_quality (avg : ℚ) : String :=
  if avg ≥ 8/10 then "high"
  else if avg ≥ 6/10 then "medium"
  else "low"

/-! Year-over-year consolidation (`excel_generator.py` lines 249-302).

A row of the consolidated DataFrame is modelled with its `Report Year`
cell and the four aggregated financial columns; `none` stands for a
missing value (NaN).  A year cell holds either a number or a string,
ordered numbers-first (pandas raises on sorting a mixed numeric/string
key set, so mixed-type key sets are outside the modelled behaviour; the
theorems below only instantiate homogeneous ones).  `pct_change` with a
zero previous value yields inf/NaN in pandas; with rational arithmetic
the quotient is 0 — no claim touches that case. -/

abbrev YearKey := Lex (Sum ℚ PyStr)

instance : DecidableEq YearKey :=
  inferInstanceAs (DecidableEq (Sum ℚ PyStr))

/-- A numeric `Report Year` cell. -/
def yearNum (q : ℚ) : YearKey := toLex (Sum.inl q)

/-- A string-valued `Report Year` cell (strings are `List Char` as
everywhere in this embedding). -/
def yearStr (s : PyStr) : YearKey := toLex (Sum.inr s)

/-- One row of the consolidated DataFrame, restricted to the columns that
`_create_yoy_analysis_sheet` touches. -/
structure YoYRow where
  report_year : Option YearKey
  total_revenue : Option ℚ
  net_income : Option ℚ
  total_assets : Option ℚ
  total_liabilities : Option ℚ
deriving DecidableEq

/-- Pandas `agg('sum')`: NaN entries are skipped, an all-NaN column sums
to 0. -/
def optSum (l : List (Option ℚ)) : ℚ :=
  (l.filterMap id).sum

/-- Pandas `agg('mean')` followed by `.fillna(0)`: NaN entries are
skipped, and the NaN mean of an all-NaN column is filled with 0. -/
def optMean (l : List (Option ℚ)) : ℚ :=
  let v := l.filterMap id
  if v.length = 0 then 0 else v.sum / (v.length : ℚ)

/-- Aggregates of one year group (`excel_generator.py` lines 260-265):
revenue-like columns are summed, balance-sheet columns are averaged. -/
structure YearAgg where
  total_revenue : ℚ
  net_income : ℚ
  total_assets : ℚ
  total_liabilities : ℚ
deriving DecidableEq

/-- The aggregation of the rows of one `Report Year` group. -/
def aggregateYear (rows : List YoYRow) (y : YearKey) : YearAgg :=
  let sub := rows.filter (fun r => decide (r.report_year = some y))
  { total_revenue := optSum (sub.map (fun r => r.total_revenue)),
    net_income := optSum (sub.map (fun r => r.net_income)),
    total_assets := optMean (sub.map (fun r => r.total_assets)),
    total_liabilities := optMean (sub.map (fun r => r.total_liabilities)) }

/-- The group keys of `groupby('Report Year')`: the distinct non-missing
year cells, sorted ascending (pandas sorts group keys by default; NaN
keys are dropped). -/
def sortedYearKeys (rows : List YoYRow) : List YearKey :=
  List.insertionSort (fun a b => a ≤ b)
    ((rows.filterMap (fun r => r.report_year)).dedup)

/-- Pandas `pct_change` of one cell: relative change from the previous
row. -/
def pctQ (prev cur : ℚ) : ℚ := (cur - prev) / prev

/-- Componentwise `pct_change` of one aggregate row. -/
def pctAgg (prev cur : YearAgg) : YearAgg :=
  { total_revenue := pctQ prev.total_revenue cur.total_revenue,
    net_income := pctQ prev.net_income cur.net_income,
    total_assets := pctQ prev.total_assets cur.total_assets,
    total_liabilities := pctQ prev.total_liabilities cur.total_liabilities }

def zeroAgg : YearAgg := ⟨0, 0, 0, 0⟩

/-- `yearly_data.pct_change().fillna(0)` (`excel_generator.py` line 272):
the first row has no predecessor, its NaN changes are filled with 0. -/
def pctChanges (l : List YearAgg) : List YearAgg :=
  match l with
  | [] => []
  | _ :: t => zeroAgg :: ((l.zip t).map (fun p => pctAgg p.1 p.2))

/-- Python `int(x)` on a float: truncation toward zero (for a rational
in lowest terms this is the T-division of numerator by denominator). -/
def pyTrunc (q : ℚ) : Int :=
  q.num.tdiv (q.den : Int)

/-- The value of a non-empty all-digit character list. -/
def digitsVal? (l : List Char) : Option Nat :=
  if l ≠ [] ∧ l.all (fun c => c.isDigit) then
    some (l.foldl (fun acc c => 10 * acc + (c.toNat - 48)) 0)
  else none

/-- Python `int(s)` on a string: an optional sign followed by digits
parses to an integer, anything else raises `ValueError`. -/
def pyIntOfString (s : PyStr) : Except String Int :=
  let core : Bool × List Char :=
    match s with
    | '-' :: t => (true, t)
    | '+' :: t => (false, t)
    | l => (false, l)
  match digitsVal? core.2 with
  | some n => Except.ok (if core.1 then -(n : Int) else (n : Int))
  | none => Except.error ("invalid literal for int with base 10: " ++ String.mk s)

/-- Python `int(year)` as called when writing each year cell
(`excel_generator.py` lines 281 and 297): floats are truncated, numeric
strings are parsed, and a non-numeric string raises `ValueError`. -/
def pyIntOfYear (y : YearKey) : Except String Int :=
  match ofLex y with
  | Sum.inl q => Except.ok (pyTrunc q)
  | Sum.inr s => pyIntOfString s

/-- Content written to the `Year-over-Year Analysis` sheet: no sheet at
all when the early guard returns (`excel_generator.py` line 251), the
insufficient-data message (`excel_generator.py` lines 267-269), or the
yearly table plus the growth table, whose first (earliest) year row is
skipped (`excel_generator.py` lines 294-296). -/
inductive YoYOutput where
  | noSheet
  | insufficient
  | table (yearly : List (Int × YearAgg)) (growth : List (Int × YearAgg))
deriving DecidableEq

/-- One table-writing loop: each row's year cell goes through
`int(year)`; the first non-numeric year aborts the sheet with the
`ValueError`. -/
def traverseYears : List (YearKey × YearAgg) → Except String (List (Int × YearAgg))
  | [] => Except.ok []
  | p :: t =>
    match pyIntOfYear p.1 with
    | Except.error e => Except.error e
    | Except.ok z =>
      match traverseYears t with
      | Except.error e => Except.error e
      | Except.ok rest => Except.ok ((z, p.2) :: rest)

/-- The sheet contents as a function of the per-year aggregates, in group
order.  An `Except.error` models the uncaught `ValueError` of
`int(year)` propagating out of the sheet writer (the yearly table is
written first, then the growth table with its first row skipped). -/
def yoyFromYearly (yearly : List (YearKey × YearAgg)) : Except String YoYOutput :=
  if yearly.length < 2 then Except.ok YoYOutput.insufficient
  else do
    let yearlyOut ← traverseYears yearly
    let changes := pctChanges (yearly.map (fun p => p.2))
    let growthPairs := (yearly.map (fun p => p.1)).zip changes
    let growthOut ← traverseYears (growthPairs.drop 1)
    pure (YoYOutput.table yearlyOut growthOut)

/-- `ExcelReportGenerator._create_yoy_analysis_sheet`
(`excel_generator.py` lines 249-302), as the content it writes.  The
guard at line 251 returns without creating the sheet when the
consolidated frame is empty (`rows = []` here) or the `Report Year`
column is absent; every `YoYRow` of this model carries the column, so
the column-absent arm of that guard (a batch in which no document has a
`Report Year` attribute at all) is outside the modelled inputs. -/
def create_yoy_analysis (rows : List YoYRow) : Except String YoYOutput :=
  if rows = [] then Except.ok YoYOutput.noSheet
  else yoyFromYearly ((sortedYearKeys rows).map (fun y => (y, aggregateYear rows y)))

/-! Concrete instances used by the counterexamples and witnesses below. -/

def docName : String := "doc.pdf"

/-- Libraries for a document from which nothing can be extracted. -/
def emptyLibs : PdfLibs :=
  { pdfplumber := fun _ => [], pymupdf := fun _ => [],
    fitzOpen := fun _ => some 0, ocrPage := fun _ _ _ => [] }

/-- Native extraction yields 151 characters, of which only the first 10
survive `strip()` (the rest are trailing newlines). -/
def trailingWsLibs : PdfLibs :=
  { emptyLibs with pdfplumber := fun _ => List.replicate 10 'a' ++ List.replicate 141 '\n' }

/-- Native extraction yields 101 non-whitespace characters. -/
def nativeWinLibs : PdfLibs :=
  { emptyLibs with pdfplumber := fun _ => List.replicate 101 'a' }

/-- Native extraction yields exactly 60 non-whitespace characters. -/
def native60Libs : PdfLibs :=
  { emptyLibs with pdfplumber := fun _ => List.replicate 60 'a' }

/-- Native extraction yields 60 characters and OCR recovers a 40-character
page (two words of confidence 80 and 90). -/
def native60OcrLibs : PdfLibs :=
  { emptyLibs with
    pdfplumber := fun _ => List.replicate 60 'a'
    fitzOpen := fun _ => some 1
    ocrPage := fun _ _ _ => [(List.replicate 20 'x', 80), (List.replicate 19 'y', 90)] }

/-- A 12-page scanned document whose first page yields one confident word
(confidence 95), one blank token and one low-confidence word. -/
def ocrDemoLibs : PdfLibs :=
  { emptyLibs with
    fitzOpen := fun _ => some 12
    ocrPage := fun _ i _ =>
      if i = 0 then [(List.replicate 5 'w', 95), ([' '], 99), (List.replicate 3 'q', 10)]
      else [] }

/-- A unit of work that fails on `bad.pdf` and succeeds elsewhere. -/
def demoRunSingle : String → Except String ExtractionResult :=
  fun k => if k = "bad.pdf" then Except.error ("boom") else Except.ok (init_result k)

def demoKeys : List String := ["good.pdf", "bad.pdf"]

/-- A one-attribute extraction schema. -/
def attrCfg1 : List AttrConfig :=
  [{ name := "Total Revenue", description := "Total revenue of the period",
     data_type := "currency", required := true }]

/-- A two-attribute extraction schema. -/
def attrCfg2 : List AttrConfig :=
  attrCfg1 ++ [{ name := "Report Year", description := "Fiscal year of the report",
                 data_type := "number", required := true }]

/-- A well-formed model response whose self-reported confidence (0.9)
contradicts its own all-zero confidence breakdown. -/
def badModelOutput : Json :=
  Json.obj [
    ("extraction_metadata", Json.obj [
      ("processing_date", Json.str "2024-01-01"),
      ("confidence_score", Json.num (9/10)),
      ("extraction_method", Json.str "bedrock_claude")]),
    ("extracted_attributes", Json.obj [
      ("Total Revenue", Json.obj [
        ("value", Json.num 1500000),
        ("confidence", Json.num (9/10)),
        ("confidence_breakdown", Json.obj [
          ("text_clarity", Json.num 0),
          ("exact_match", Json.num 0),
          ("context_match", Json.num 0),
          ("format_validity", Json.num 0)]),
        ("source_text", Json.str "Revenue: 1,500,000"),
        ("extraction_reasoning", Json.str "matched revenue line")])])]

/-- One consolidated row whose four financial cells all hold `v`. -/
def mkYoYRow (y : Option YearKey) (v : ℚ) : YoYRow :=
  { report_year := y, total_revenue := some v, net_income := some v,
    total_assets := some v, total_liabilities := some v }

/-- The spec's worked example: revenue 100, 150, 120 over 2021-2023. -/
def yoyExampleRows : List YoYRow :=
  [mkYoYRow (some (yearNum 2021)) 100,
   mkYoYRow (some (yearNum 2022)) 150,
   mkYoYRow (some (yearNum 2023)) 120]

/-- The expected sheet content for `yoyExampleRows`. -/
def yoyExampleTable : YoYOutput :=
  YoYOutput.table
    [(2021, ⟨100, 100, 100, 100⟩), (2022, ⟨150, 150, 150, 150⟩),
     (2023, ⟨120, 120, 120, 120⟩)]
    [(2022, ⟨1/2, 1/2, 1/2, 1/2⟩), (2023, ⟨-1/5, -1/5, -1/5, -1/5⟩)]

/-- A batch with two numeric-string years and one non-numeric year. -/
def yoyBadYearRows : List YoYRow :=
  [mkYoYRow (some (yearStr ("2021").data)) 100,
   mkYoYRow (some (yearStr ("2022").data)) 150,
   mkYoYRow (some (yearStr ("N/A").data)) 120]

/-- Pages among the first `min n 10` whose OCR output yields any kept
word: the pages over which `_extract_with_ocr` accumulates
`total_confidence`.  This and `pageAvg` restate the loop accumulators in
the closed form used by the spec ("pages that yielded any text",
"per-page average kept-word confidence"). -/
def ocrTextPages (L : PdfLibs) (b : PdfBytes) (n : Nat) : List Nat :=
  (List.range (min n 10)).filter (fun i => decide (keptWords L b i ≠ []))

/-- The average confidence of the kept words of page `i`. -/
def pageAvg (L : PdfLibs) (b : PdfBytes) (i : Nat) : ℚ :=
  listAvg ((keptWords L b i).map (fun w => w.2))

/-! Helper lemmas about the cascade. -/

theorem pyStrip_length_le (s : PyStr) : (pyStrip s).length ≤ s.length := by
  unfold pyStrip
  rw [List.length_reverse]
  refine le_trans (List.dropWhile_sublist _).length_le ?_
  rw [List.length_reverse]
  exact (List.dropWhile_sublist _).length_le

theorem pageStep_fields (L : PdfLibs) (b : PdfBytes) (r : ExtractionResult) :
    (pageStep L b r).text = r.text ∧
    (pageStep L b r).extraction_method = r.extraction_method ∧
    (pageStep L b r).confidence_score = r.confidence_score ∧
    (pageStep L b r).errors = r.errors ∧
    (pageStep L b r).has_text = r.has_text := by
  unfold pageStep
  cases L.fitzOpen b <;> exact ⟨rfl, rfl, rfl, rfl, rfl⟩

theorem finalize_text (r : ExtractionResult) : (finalize r).text = r.text := by
  unfold finalize
  split <;> rfl

theorem finalize_method (r : ExtractionResult) :
    (finalize r).extraction_method = r.extraction_method := by
  unfold finalize
  split <;> rfl

theorem finalize_has_text (r : ExtractionResult) :
    (finalize r).has_text = r.has_text := by
  unfold finalize
  split <;> rfl

theorem finalize_pos (r : ExtractionResult)
    (h : r.text = [] ∨ (pyStrip r.text).length < 50) :
    (finalize r).confidence_score = 1/10 ∧ insufficientMsg ∈ (finalize r).errors := by
  unfold finalize
  rw [if_pos h]
  exact ⟨rfl, List.mem_append_right _ (List.mem_singleton_self _)⟩

theorem finalize_neg (r : ExtractionResult)
    (h : ¬(r.text = [] ∨ (pyStrip r.text).length < 50)) :
    finalize r = r := if_neg h

theorem finalize_short (r : ExtractionResult) (h : r.text.length < 50) :
    (finalize r).confidence_score = 1/10 ∧ insufficientMsg ∈ (finalize r).errors :=
  finalize_pos r (Or.inr (lt_of_le_of_lt (pyStrip_length_le r.text) h))

theorem cascade_pos1 (L : PdfLibs) (b : PdfBytes) (fn : String)
    (h : L.pdfplumber b ≠ [] ∧ 100 < (pyStrip (L.pdfplumber b)).length) :
    cascade L b fn =
      ({ init_result fn with
          text := L.pdfplumber b
          extraction_method := "pdfplumber"
          has_text := true
          confidence_score := 95/100 }, ["pdfplumber"]) := by
  simp only [cascade]
  rw [if_pos h]

theorem cascade_pos2 (L : PdfLibs) (b : PdfBytes) (fn : String)
    (h1 : ¬(L.pdfplumber b ≠ [] ∧ 100 < (pyStrip (L.pdfplumber b)).length))
    (h2 : L.pymupdf b ≠ [] ∧ 100 < (pyStrip (L.pymupdf b)).length) :
    cascade L b fn =
      ({ init_result fn with
          text := L.pymupdf b
          extraction_method := "pymupdf"
          has_text := true
          confidence_score := 90/100 }, ["pdfplumber", "pymupdf"]) := by
  simp only [cascade]
  rw [if_neg h1, if_pos h2]

theorem cascade_pos3 (L : PdfLibs) (b : PdfBytes) (fn : String)
    (h1 : ¬(L.pdfplumber b ≠ [] ∧ 100 < (pyStrip (L.pdfplumber b)).length))
    (h2 : ¬(L.pymupdf b ≠ [] ∧ 100 < (pyStrip (L.pymupdf b)).length)) :
    cascade L b fn =
      (applyOcr (init_result fn) (extract_with_ocr L b).1,
       ["pdfplumber", "pymupdf", "ocr"]) := by
  simp only [cascade]
  rw [if_neg h1, if_neg h2]

theorem extract_eq_finalize (L : PdfLibs) (b : PdfBytes) (fn : String) :
    extract_text_from_pdf L b fn = finalize (pageStep L b (cascade L b fn).1) := rfl

theorem extract_method_eq (L : PdfLibs) (b : PdfBytes) (fn : String) :
    (extract_text_from_pdf L b fn).extraction_method =
      ((cascade L b fn).1).extraction_method := by
  rw [extract_eq_finalize, finalize_method]
  exact (pageStep_fields L b _).2.1

set_option maxRecDepth 40000 in
/-- C1 counterexample: a native extraction of 151 characters whose tail is
whitespace does not win the cascade (the code thresholds the stripped
length, which is 10 here): the alternate and OCR strategies are attempted,
the method is not the native one, and the confidence is not 0.95. -/
theorem c1_counterexample :
    (trailingWsLibs.pdfplumber []).length = 151 ∧
    100 < (trailingWsLibs.pdfplumber []).length ∧
    (extract_text_from_pdf trailingWsLibs [] docName).extraction_method ≠ "pdfplumber" ∧
    (extract_text_from_pdf trailingWsLibs [] docName).confidence_score ≠ 95/100 ∧
    attempted_strategies trailingWsLibs [] docName = ["pdfplumber", "pymupdf", "ocr"] := by
  refine ⟨by decide, by decide, by decide, ?_, by decide⟩
  rw [show (extract_text_from_pdf trailingWsLibs [] docName).confidence_score = 1/10 from rfl]
  norm_num

/-- C1 (amended): the cascade tries native, then alternate, then OCR; the
first text-layer strategy whose extracted text is longer than 100
characters after stripping surrounding whitespace wins, with text taken
verbatim, confidence fixed at 0.95 (native) resp. 0.90 (alternate), and
later strategies never attempted; repeated calls on the same bytes yield
the same result. -/
theorem c1_cascade_priority (L : PdfLibs) (b : PdfBytes) (fn : String) :
    (L.pdfplumber b ≠ [] ∧ 100 < (pyStrip (L.pdfplumber b)).length →
      (extract_text_from_pdf L b fn).extraction_method = "pdfplumber" ∧
      (extract_text_from_pdf L b fn).confidence_score = 95/100 ∧
      (extract_text_from_pdf L b fn).text = L.pdfplumber b ∧
      (extract_text_from_pdf L b fn).has_text = true ∧
      attempted_strategies L b fn = ["pdfplumber"]) ∧
    (¬(L.pdfplumber b ≠ [] ∧ 100 < (pyStrip (L.pdfplumber b)).length) →
      L.pymupdf b ≠ [] ∧ 100 < (pyStrip (L.pymupdf b)).length →
      (extract_text_from_pdf L b fn).extraction_method = "pymupdf" ∧
      (extract_text_from_pdf L b fn).confidence_score = 90/100 ∧
      (extract_text_from_pdf L b fn).text = L.pymupdf b ∧
      attempted_strategies L b fn = ["pdfplumber", "pymupdf"]) ∧
    extract_text_from_pdf L b fn = extract_text_from_pdf L b fn := by
  refine ⟨fun h => ?_, fun h1 h2 => ?_, rfl⟩
  · obtain ⟨hne, hlen⟩ := h
    have hc := cascade_pos1 L b fn ⟨hne, hlen⟩
    have he := extract_eq_finalize L b fn
    rw [hc] at he
    have ha : attempted_strategies L b fn = ["pdfplumber"] := by
      unfold attempted_strategies extract_text_from_pdf_traced
      rw [hc]
    set r1 : ExtractionResult :=
      { init_result fn with
          text := L.pdfplumber b
          extraction_method := "pdfplumber"
          has_text := true
          confidence_score := 95/100 } with hr1
    have htext : (pageStep L b r1).text = L.pdfplumber b := (pageStep_fields L b r1).1
    have hng : ¬((pageStep L b r1).text = [] ∨
        (pyStrip (pageStep L b r1).text).length < 50) := by
      rw [htext]
      push_neg
      exact ⟨hne, by omega⟩
    rw [he, finalize_neg _ hng]
    exact ⟨(pageStep_fields L b r1).2.1, (pageStep_fields L b r1).2.2.1, htext,
           (pageStep_fields L b r1).2.2.2.2, ha⟩
  · obtain ⟨hne, hlen⟩ := h2
    have hc := cascade_pos2 L b fn h1 ⟨hne, hlen⟩
    have he := extract_eq_finalize L b fn
    rw [hc] at he
    have ha : attempted_strategies L b fn = ["pdfplumber", "pymupdf"] := by
      unfold attempted_strategies extract_text_from_pdf_traced
      rw [hc]
    set r2 : ExtractionResult :=
      { init_result fn with
          text := L.pymupdf b
          extraction_method := "pymupdf"
          has_text := true
          confidence_score := 90/100 } with hr2
    have htext : (pageStep L b r2).text = L.pymupdf b := (pageStep_fields L b r2).1
    have hng : ¬((pageStep L b r2).text = [] ∨
        (pyStrip (pageStep L b r2).text).length < 50) := by
      rw [htext]
      push_neg
      exact ⟨hne, by omega⟩
    rw [he, finalize_neg _ hng]
    exact ⟨(pageStep_fields L b r2).2.1, (pageStep_fields L b r2).2.2.1, htext, ha⟩

/-- C1 witness: a native extraction of 101 non-whitespace characters wins
with method `pdfplumber`, confidence 0.95, and no other strategy attempted. -/
theorem c1_cascade_priority_witness :
    (extract_text_from_pdf nativeWinLibs [] docName).extraction_method = "pdfplumber" ∧
    (extract_text_from_pdf nativeWinLibs [] docName).confidence_score = 95/100 ∧
    attempted_strategies nativeWinLibs [] docName = ["pdfplumber"] := by
  have h := (c1_cascade_priority nativeWinLibs [] docName).1 (by decide)
  exact ⟨h.1, h.2.1, h.2.2.2.2⟩

/-- C2: whenever the final extracted text is shorter than 50 characters
(in particular when it is empty), the result is downgraded to confidence
0.1 and the insufficient-text error is appended, regardless of the
strategy that produced the text. -/
theorem c2_sufficiency_downgrade (L : PdfLibs) (b : PdfBytes) (fn : String)
    (h : (extract_text_from_pdf L b fn).text.length < 50) :
    (extract_text_from_pdf L b fn).confidence_score = 1/10 ∧
    insufficientMsg ∈ (extract_text_from_pdf L b fn).errors := by
  rw [extract_eq_finalize] at h ⊢
  rw [finalize_text] at h
  exact finalize_short _ h

/-- C2 witness: on a document from which nothing can be extracted the
result carries confidence 0.1 and the insufficient-text error. -/
theorem c2_sufficiency_downgrade_witness :
    (extract_text_from_pdf emptyLibs [] docName).confidence_score = 1/10 ∧
    insufficientMsg ∈ (extract_text_from_pdf emptyLibs [] docName).errors :=
  c2_sufficiency_downgrade emptyLibs [] docName (by decide)

set_option maxRecDepth 40000 in
/-- C9 counterexample: a native extraction of exactly 60 characters does
NOT win the cascade: the win threshold requires a stripped length above
100, so the method is not the native one and the confidence is not 0.95
(here the input falls all the way through to a failed OCR and is
downgraded to 0.1). -/
theorem c9_counterexample :
    (native60Libs.pdfplumber []).length = 60 ∧
    (extract_text_from_pdf native60Libs [] docName).extraction_method ≠ "pdfplumber" ∧
    (extract_text_from_pdf native60Libs [] docName).confidence_score ≠ 95/100 := by
  refine ⟨by decide, by decide, ?_⟩
  rw [show (extract_text_from_pdf native60Libs [] docName).confidence_score = 1/10 from rfl]
  norm_num

/-- C9 (amended): the 100-character win-threshold and the 50-character
sufficiency-floor are independent checks, but a 60-character native
extraction loses rather than wins: any input whose native extraction has
60 characters falls through to a later strategy, while any result whose
final text is 40 characters long is downgraded to confidence 0.1
regardless of which strategy produced it. -/
theorem c9_thresholds (L : PdfLibs) (b : PdfBytes) (fn : String) :
    ((L.pdfplumber b).length = 60 →
      (extract_text_from_pdf L b fn).extraction_method ≠ "pdfplumber") ∧
    ((extract_text_from_pdf L b fn).text.length = 40 →
      (extract_text_from_pdf L b fn).confidence_score = 1/10 ∧
      insufficientMsg ∈ (extract_text_from_pdf L b fn).errors) := by
  constructor
  · intro h60
    have hstrip : (pyStrip (L.pdfplumber b)).length ≤ 60 := by
      rw [← h60]
      exact pyStrip_length_le _
    have h1 : ¬(L.pdfplumber b ≠ [] ∧ 100 < (pyStrip (L.pdfplumber b)).length) := by
      rintro ⟨-, hgt⟩
      omega
    rw [extract_method_eq]
    by_cases h2 : L.pymupdf b ≠ [] ∧ 100 < (pyStrip (L.pymupdf b)).length
    · rw [cascade_pos2 L b fn h1 h2]
      show ("pymupdf" : String) ≠ "pdfplumber"
      decide
    · rw [cascade_pos3 L b fn h1 h2]
      show ("ocr" : String) ≠ "pdfplumber"
      decide
  · intro h40
    rw [extract_eq_finalize] at h40 ⊢
    rw [finalize_text] at h40
    exact finalize_short _ (by omega)

/-- C9 witness: with a 60-character native extraction and an OCR fallback
recovering a 40-character page, the method is not native and the final
confidence is the downgraded 0.1. -/
theorem c9_thresholds_witness :
    (extract_text_from_pdf native60OcrLibs [] docName).extraction_method ≠ "pdfplumber" ∧
    (extract_text_from_pdf native60OcrLibs [] docName).confidence_score = 1/10 :=
  ⟨(c9_thresholds native60OcrLibs [] docName).1 (by decide),
   ((c9_thresholds native60OcrLibs [] docName).2 (by decide)).1⟩

/-! Helper lemmas about the OCR fallback. -/

theorem ocr_foldl (L : PdfLibs) (b : PdfBytes) (l : List Nat) (s : OcrState) :
    l.foldl (ocrPageStep L b) s =
      { text_parts := s.text_parts ++
          (l.filter (fun i => decide (keptWords L b i ≠ []))).map
            (fun i => pyJoin [' '] ((keptWords L b i).map (fun w => w.1))),
        total_confidence := s.total_confidence +
          ((l.filter (fun i => decide (keptWords L b i ≠ []))).map
            (fun i => listAvg ((keptWords L b i).map (fun w => w.2)))).sum,
        page_count := s.page_count +
          (l.filter (fun i => decide (keptWords L b i ≠ []))).length,
        calls := s.calls ++ l.map (fun i => (i, ocr_zoom)) } := by
  induction l generalizing s with
  | nil => simp
  | cons i t ih =>
    rw [List.foldl_cons, ih]
    by_cases h : keptWords L b i = []
    · simp [ocrPageStep, h]
    · have hmap : (keptWords L b i).map (fun w => w.1) ≠ [] := by
        simpa using h
      have hmap2 : (keptWords L b i).map (fun w => w.2) ≠ [] := by
        simpa using h
      simp [ocrPageStep, h, hmap, hmap2, add_assoc, add_comm, add_left_comm]

theorem ocr_state_closed (L : PdfLibs) (b : PdfBytes) (n : Nat) :
    (List.range (min n 10)).foldl (ocrPageStep L b) ⟨[], 0, 0, []⟩ =
      { text_parts := (ocrTextPages L b n).map
          (fun i => pyJoin [' '] ((keptWords L b i).map (fun w => w.1))),
        total_confidence := ((ocrTextPages L b n).map (pageAvg L b)).sum,
        page_count := (ocrTextPages L b n).length,
        calls := (List.range (min n 10)).map (fun i => (i, ocr_zoom)) } := by
  rw [ocr_foldl]
  simp only [ocrTextPages, pageAvg, List.nil_append, zero_add, Nat.zero_add]
  rfl

theorem extract_with_ocr_cases (L : PdfLibs) (b : PdfBytes) (n : Nat)
    (h : L.fitzOpen b = some n) :
    (extract_with_ocr L b).2 = (List.range (min n 10)).map (fun i => (i, ocr_zoom)) ∧
    (ocrTextPages L b n = [] →
      (extract_with_ocr L b).1 =
        ⟨[], false, 0, ["OCR could not extract readable text"]⟩) ∧
    (ocrTextPages L b n ≠ [] →
      (extract_with_ocr L b).1.has_text = true ∧
      (extract_with_ocr L b).1.confidence_score =
        ((ocrTextPages L b n).map (pageAvg L b)).sum /
          ((ocrTextPages L b n).length : ℚ) / 100) := by
  simp only [extract_with_ocr, h]
  rw [ocr_state_closed]
  by_cases ht : ocrTextPages L b n = []
  · simp [ht]
  · have hmap : (ocrTextPages L b n).map
        (fun i => pyJoin [' '] ((keptWords L b i).map (fun w => w.1))) ≠ [] := by
      simpa using ht
    have hlen : 0 < (ocrTextPages L b n).length := List.length_pos.mpr ht
    simp [ht, hmap, hlen]

theorem keptWords_mem (L : PdfLibs) (b : PdfBytes) (i : Nat) (w : PyStr × Int)
    (hw : w ∈ keptWords L b i) :
    w ∈ L.ocrPage b i ocr_zoom ∧ pyStrip w.1 ≠ [] ∧ 30 < w.2 := by
  have h := List.mem_filter.mp hw
  exact ⟨h.1, of_decide_eq_true h.2⟩

theorem listAvg_bounds (confs : List Int) (hne : confs ≠ [])
    (hlo : ∀ c ∈ confs, (0 : Int) ≤ c) (hhi : ∀ c ∈ confs, c ≤ 100) :
    0 ≤ listAvg confs ∧ listAvg confs ≤ 100 := by
  unfold listAvg
  have hlen : (0 : ℚ) < (confs.length : ℚ) := by
    exact_mod_cast List.length_pos.mpr hne
  have hmem : ∀ x ∈ confs.map (fun (c : Int) => (c : ℚ)), 0 ≤ x ∧ x ≤ 100 := by
    intro x hx
    obtain ⟨c, hc, rfl⟩ := List.mem_map.mp hx
    exact ⟨by exact_mod_cast hlo c hc, by exact_mod_cast hhi c hc⟩
  have hsum0 : 0 ≤ (confs.map (fun (c : Int) => (c : ℚ))).sum :=
    List.sum_nonneg (fun x hx => (hmem x hx).1)
  have hsum100 : (confs.map (fun (c : Int) => (c : ℚ))).sum ≤
      (confs.map (fun (c : Int) => (c : ℚ))).length • (100 : ℚ) :=
    List.sum_le_card_nsmul _ 100 (fun x hx => (hmem x hx).2)
  constructor
  · exact div_nonneg hsum0 (le_of_lt hlen)
  · rw [div_le_iff₀ hlen]
    calc (confs.map (fun (c : Int) => (c : ℚ))).sum
        ≤ (confs.map (fun (c : Int) => (c : ℚ))).length • (100 : ℚ) := hsum100
    _ = 100 * confs.length := by
        rw [nsmul_eq_mul, List.length_map]
        ring

theorem pageAvg_bounds (L : PdfLibs) (b : PdfBytes) (i : Nat)
    (hw : ∀ w ∈ L.ocrPage b i ocr_zoom, w.2 ≤ 100)
    (hne : keptWords L b i ≠ []) :
    0 ≤ pageAvg L b i ∧ pageAvg L b i ≤ 100 := by
  unfold pageAvg
  have hne2 : (keptWords L b i).map (fun w => w.2) ≠ [] := by
    simpa using hne
  refine listAvg_bounds _ hne2 ?_ ?_
  · intro c hc
    obtain ⟨w, hwmem, rfl⟩ := List.mem_map.mp hc
    have h30 := (keptWords_mem L b i w hwmem).2.2
    omega
  · intro c hc
    obtain ⟨w, hwmem, rfl⟩ := List.mem_map.mp hc
    exact hw w (keptWords_mem L b i w hwmem).1

theorem sum_pageAvg_bounds (L : PdfLibs) (b : PdfBytes) (n : Nat)
    (hw : ∀ i w, w ∈ L.ocrPage b i ocr_zoom → w.2 ≤ 100) :
    0 ≤ ((ocrTextPages L b n).map (pageAvg L b)).sum ∧
    ((ocrTextPages L b n).map (pageAvg L b)).sum ≤
      ((ocrTextPages L b n).length : ℚ) * 100 := by
  have hmem : ∀ x ∈ (ocrTextPages L b n).map (pageAvg L b), 0 ≤ x ∧ x ≤ 100 := by
    intro x hx
    obtain ⟨i, hi, rfl⟩ := List.mem_map.mp hx
    have hne : keptWords L b i ≠ [] :=
      of_decide_eq_true (List.mem_filter.mp hi).2
    exact pageAvg_bounds L b i (hw i) hne
  constructor
  · exact List.sum_nonneg (fun x hx => (hmem x hx).1)
  · calc ((ocrTextPages L b n).map (pageAvg L b)).sum
        ≤ ((ocrTextPages L b n).map (pageAvg L b)).length • (100 : ℚ) :=
          List.sum_le_card_nsmul _ 100 (fun x hx => (hmem x hx).2)
    _ = ((ocrTextPages L b n).length : ℚ) * 100 := by
        rw [nsmul_eq_mul]
        simp

theorem ocr_conf_bounds (L : PdfLibs) (b : PdfBytes)
    (hw : ∀ i w, w ∈ L.ocrPage b i ocr_zoom → w.2 ≤ 100) :
    0 ≤ (extract_with_ocr L b).1.confidence_score ∧
    (extract_with_ocr L b).1.confidence_score ≤ 1 := by
  cases hfo : L.fitzOpen b with
  | none =>
    simp [extract_with_ocr, hfo]
  | some n =>
    have hc := extract_with_ocr_cases L b n hfo
    by_cases ht : ocrTextPages L b n = []
    · rw [hc.2.1 ht]
      norm_num
    · obtain ⟨-, hconf⟩ := hc.2.2 ht
      rw [hconf]
      obtain ⟨hs0, hs100⟩ := sum_pageAvg_bounds L b n hw
      have hlpos : (0 : ℚ) < ((ocrTextPages L b n).length : ℚ) := by
        exact_mod_cast List.length_pos.mpr ht
      constructor
      · positivity
      · rw [div_le_one (by norm_num : (0:ℚ) < 100), div_le_iff₀ hlpos]
        calc ((ocrTextPages L b n).map (pageAvg L b)).sum
            ≤ ((ocrTextPages L b n).length : ℚ) * 100 := hs100
        _ = 100 * ((ocrTextPages L b n).length : ℚ) := by ring

theorem ocr_no_text (L : PdfLibs) (b : PdfBytes)
    (h : (extract_with_ocr L b).1.has_text = false) :
    (extract_with_ocr L b).1.text = [] ∧
    (extract_with_ocr L b).1.confidence_score = 0 := by
  cases hfo : L.fitzOpen b with
  | none => simp [extract_with_ocr, hfo]
  | some n =>
    have hc := extract_with_ocr_cases L b n hfo
    by_cases ht : ocrTextPages L b n = []
    · rw [hc.2.1 ht]
      exact ⟨rfl, rfl⟩
    · rw [(hc.2.2 ht).1] at h
      cases h

/-- C3: under a successfully opened document of `n` pages, the OCR
fallback rasterizes exactly the first `min n 10` pages (at most 10), each
at the fixed 2x zoom; it keeps only words that are non-blank after
stripping and whose per-word confidence exceeds 30; over the pages that
yielded any text its confidence is the mean per-page average kept-word
confidence divided by 100 (and lies in [0,1] whenever the recognizer
reports confidences on the 0-100 scale); if no page yields text the
confidence is 0 and an error is recorded. -/
theorem c3_ocr_fallback (L : PdfLibs) (b : PdfBytes) (n : Nat)
    (h : L.fitzOpen b = some n) :
    (extract_with_ocr L b).2 = (List.range (min n 10)).map (fun i => (i, ocr_zoom)) ∧
    (extract_with_ocr L b).2.length ≤ 10 ∧
    ocr_zoom = (2, 2) ∧
    (∀ i w, w ∈ keptWords L b i →
      w ∈ L.ocrPage b i ocr_zoom ∧ pyStrip w.1 ≠ [] ∧ 30 < w.2) ∧
    (ocrTextPages L b n = [] →
      (extract_with_ocr L b).1.confidence_score = 0 ∧
      (extract_with_ocr L b).1.errors = ["OCR could not extract readable text"]) ∧
    (ocrTextPages L b n ≠ [] →
      (extract_with_ocr L b).1.confidence_score =
        ((ocrTextPages L b n).map (pageAvg L b)).sum /
          ((ocrTextPages L b n).length : ℚ) / 100) ∧
    ((∀ i w, w ∈ L.ocrPage b i ocr_zoom → w.2 ≤ 100) →
      0 ≤ (extract_with_ocr L b).1.confidence_score ∧
      (extract_with_ocr L b).1.confidence_score ≤ 1) := by
  obtain ⟨hcalls, hempty, hfull⟩ := extract_with_ocr_cases L b n h
  refine ⟨hcalls, ?_, rfl, keptWords_mem L b, fun ht => ?_,
          fun ht => (hfull ht).2, fun hw => ocr_conf_bounds L b hw⟩
  · rw [hcalls]
    simp only [List.length_map, List.length_range]
    exact min_le_right n 10
  · rw [hempty ht]
    exact ⟨rfl, rfl⟩

/-- C3 witness: a 12-page scanned document rasterizes only 10 pages, and
its confidence equals the normalized mean page confidence. -/
theorem c3_ocr_fallback_witness :
    (extract_with_ocr ocrDemoLibs []).2.length ≤ 10 ∧
    (extract_with_ocr ocrDemoLibs []).1.confidence_score =
      ((ocrTextPages ocrDemoLibs [] 12).map (pageAvg ocrDemoLibs [])).sum /
        ((ocrTextPages ocrDemoLibs [] 12).length : ℚ) / 100 := by
  have h := c3_ocr_fallback ocrDemoLibs [] 12 rfl
  exact ⟨h.2.1, h.2.2.2.2.2.1 (by decide)⟩

/-- C10: for every input, extraction is total (the embedding is a total
function), the confidence score lies in [0,1] provided the optical
recognizer honours its 0-100 confidence scale, and a result without text
has confidence at most 0.1. -/
theorem c10_safety (L : PdfLibs) (b : PdfBytes) (fn : String)
    (hw : ∀ i w, w ∈ L.ocrPage b i ocr_zoom → w.2 ≤ 100) :
    0 ≤ (extract_text_from_pdf L b fn).confidence_score ∧
    (extract_text_from_pdf L b fn).confidence_score ≤ 1 ∧
    ((extract_text_from_pdf L b fn).has_text = false →
      (extract_text_from_pdf L b fn).confidence_score ≤ 1/10) := by
  by_cases h1 : L.pdfplumber b ≠ [] ∧ 100 < (pyStrip (L.pdfplumber b)).length
  · have hc := cascade_pos1 L b fn h1
    have he := extract_eq_finalize L b fn
    rw [hc] at he
    set r1 : ExtractionResult :=
      { init_result fn with
          text := L.pdfplumber b
          extraction_method := "pdfplumber"
          has_text := true
          confidence_score := 95/100 } with hr1
    have htext : (pageStep L b r1).text = L.pdfplumber b := (pageStep_fields L b r1).1
    have hng : ¬((pageStep L b r1).text = [] ∨
        (pyStrip (pageStep L b r1).text).length < 50) := by
      rw [htext]
      push_neg
      obtain ⟨hne, hlen⟩ := h1
      exact ⟨hne, by omega⟩
    rw [he, finalize_neg _ hng]
    have hcs : (pageStep L b r1).confidence_score = 95/100 :=
      (pageStep_fields L b r1).2.2.1
    have hht : (pageStep L b r1).has_text = true :=
      (pageStep_fields L b r1).2.2.2.2
    rw [hcs, hht]
    refine ⟨by norm_num, by norm_num, fun habs => ?_⟩
    cases habs
  · by_cases h2 : L.pymupdf b ≠ [] ∧ 100 < (pyStrip (L.pymupdf b)).length
    · have hc := cascade_pos2 L b fn h1 h2
      have he := extract_eq_finalize L b fn
      rw [hc] at he
      set r2 : ExtractionResult :=
        { init_result fn with
            text := L.pymupdf b
            extraction_method := "pymupdf"
            has_text := true
            confidence_score := 90/100 } with hr2
      have htext : (pageStep L b r2).text = L.pymupdf b := (pageStep_fields L b r2).1
      have hng : ¬((pageStep L b r2).text = [] ∨
          (pyStrip (pageStep L b r2).text).length < 50) := by
        rw [htext]
        push_neg
        obtain ⟨hne, hlen⟩ := h2
        exact ⟨hne, by omega⟩
      rw [he, finalize_neg _ hng]
      have hcs : (pageStep L b r2).confidence_score = 90/100 :=
        (pageStep_fields L b r2).2.2.1
      have hht : (pageStep L b r2).has_text = true :=
        (pageStep_fields L b r2).2.2.2.2
      rw [hcs, hht]
      refine ⟨by norm_num, by norm_num, fun habs => ?_⟩
      cases habs
    · have hc := cascade_pos3 L b fn h1 h2
      have he := extract_eq_finalize L b fn
      rw [hc] at he
      set r3 : ExtractionResult :=
        applyOcr (init_result fn) (extract_with_ocr L b).1 with hr3
      by_cases hd : (pageStep L b r3).text = [] ∨
          (pyStrip (pageStep L b r3).text).length < 50
      · have hfin := finalize_pos _ hd
        rw [he, hfin.1]
        refine ⟨by norm_num, by norm_num, fun _ => le_refl _⟩
      · rw [he, finalize_neg _ hd]
        have hcs : (pageStep L b r3).confidence_score =
            (extract_with_ocr L b).1.confidence_score :=
          (pageStep_fields L b r3).2.2.1
        have hht : (pageStep L b r3).has_text = (extract_with_ocr L b).1.has_text :=
          (pageStep_fields L b r3).2.2.2.2
        obtain ⟨hlo, hhi⟩ := ocr_conf_bounds L b hw
        rw [hcs, hht]
        refine ⟨hlo, le_trans hhi (by norm_num), fun habs => ?_⟩
        obtain ⟨htext, -⟩ := ocr_no_text L b habs
        have : (pageStep L b r3).text = [] := by
          rw [(pageStep_fields L b r3).1, hr3]
          exact htext
        exact absurd (Or.inl this) hd

/-- C10 witness: on garbage input with an honest recognizer the score is
in range, and the textless result is downgraded below 0.1. -/
theorem c10_safety_witness :
    0 ≤ (extract_text_from_pdf emptyLibs [] docName).confidence_score ∧
    (extract_text_from_pdf emptyLibs [] docName).confidence_score ≤ 1 ∧
    ((extract_text_from_pdf emptyLibs [] docName).has_text = false →
      (extract_text_from_pdf emptyLibs [] docName).confidence_score ≤ 1/10) :=
  c10_safety emptyLibs [] docName (fun _ w h => absurd h (List.not_mem_nil w))

/-! Helper lemmas about the attribute-extraction fallback dictionary. -/

theorem dictSet_keys_overwrite (d : List (String × Json)) (k : String) (v : Json)
    (h : d.any (fun kv => kv.1 == k) = true) :
    (dictSet d k v).map Prod.fst = d.map Prod.fst := by
  unfold dictSet
  rw [if_pos h, List.map_map]
  apply List.map_congr_left
  intro kv hkv
  by_cases hb : kv.1 == k
  · simp [Function.comp, hb]
    exact (beq_iff_eq.mp hb).symm
  · simp [Function.comp, hb]

theorem dictSet_keys_new (d : List (String × Json)) (k : String) (v : Json)
    (h : ¬ d.any (fun kv => kv.1 == k) = true) :
    (dictSet d k v).map Prod.fst = d.map Prod.fst ++ [k] := by
  unfold dictSet
  rw [if_neg h, List.map_append]
  rfl

theorem dictSet_keys_mem (d : List (String × Json)) (k : String) (v : Json) (k0 : String) :
    k0 ∈ (dictSet d k v).map Prod.fst ↔ k0 ∈ d.map Prod.fst ∨ k0 = k := by
  by_cases hany : d.any (fun kv => kv.1 == k) = true
  · rw [dictSet_keys_overwrite d k v hany]
    constructor
    · exact Or.inl
    · rintro (hm | rfl)
      · exact hm
      · obtain ⟨kv, hkv, hbeq⟩ := List.any_eq_true.mp hany
        exact List.mem_map.mpr ⟨kv, hkv, beq_iff_eq.mp hbeq⟩
  · rw [dictSet_keys_new d k v hany]
    simp

theorem dictSet_nodup (d : List (String × Json)) (k : String) (v : Json)
    (h : (d.map Prod.fst).Nodup) :
    ((dictSet d k v).map Prod.fst).Nodup := by
  by_cases hany : d.any (fun kv => kv.1 == k) = true
  · rw [dictSet_keys_overwrite d k v hany]
    exact h
  · rw [dictSet_keys_new d k v hany]
    have hk : k ∉ d.map Prod.fst := by
      intro hmem
      obtain ⟨kv, hkv, hfst⟩ := List.mem_map.mp hmem
      exact hany (List.any_eq_true.mpr ⟨kv, hkv, beq_iff_eq.mpr hfst⟩)
    refine List.nodup_append.mpr ⟨h, List.nodup_singleton _, ?_⟩
    intro a ha hb
    rw [List.mem_singleton.mp hb] at ha
    exact hk ha

theorem dictSet_values (d : List (String × Json)) (k : String)
    (hv : ∀ p ∈ d, p.2 = emptyAttrValue) :
    ∀ p ∈ dictSet d k emptyAttrValue, p.2 = emptyAttrValue := by
  unfold dictSet
  intro p hp
  by_cases h : d.any (fun kv => kv.1 == k) = true
  · rw [if_pos h] at hp
    obtain ⟨kv, hkv, rfl⟩ := List.mem_map.mp hp
    by_cases hb : kv.1 == k
    · simp [hb]
    · simp [hb]
      exact hv kv hkv
  · rw [if_neg h] at hp
    rcases List.mem_append.mp hp with hmem | hmem
    · exact hv p hmem
    · rw [List.mem_singleton.mp hmem]

theorem buildAttrDict_aux (cfg : List AttrConfig) (d : List (String × Json))
    (hv : ∀ p ∈ d, p.2 = emptyAttrValue) (hn : (d.map Prod.fst).Nodup) :
    (∀ k0, k0 ∈ ((cfg.foldl (fun d0 a => dictSet d0 a.name emptyAttrValue) d).map Prod.fst) ↔
      k0 ∈ d.map Prod.fst ∨ k0 ∈ cfg.map AttrConfig.name) ∧
    ((cfg.foldl (fun d0 a => dictSet d0 a.name emptyAttrValue) d).map Prod.fst).Nodup ∧
    (∀ p ∈ cfg.foldl (fun d0 a => dictSet d0 a.name emptyAttrValue) d,
      p.2 = emptyAttrValue) := by
  induction cfg generalizing d with
  | nil =>
    exact ⟨fun k0 => by simp, hn, hv⟩
  | cons a t ih =>
    rw [List.foldl_cons]
    have hv1 := dictSet_values d a.name hv
    have hn1 := dictSet_nodup d a.name emptyAttrValue hn
    obtain ⟨hk, hnd, hval⟩ := ih (dictSet d a.name emptyAttrValue) hv1 hn1
    refine ⟨fun k0 => ?_, hnd, hval⟩
    rw [hk k0, dictSet_keys_mem d a.name emptyAttrValue k0]
    simp only [List.map_cons, List.mem_cons]
    tauto

/-- C4 counterexample: a model response reporting confidence 0.9 with an
all-zero confidence breakdown passes through `extract_attributes`
verbatim, so the produced AttributeValue violates the weighted-sum
invariant by 0.9, far beyond the 1e-6 tolerance: nothing validates or
recomputes the formula. -/
theorem c4_counterexample :
    extract_attributes (Except.ok badModelOutput) attrCfg1 = badModelOutput ∧
    readNum (readAttr (extract_attributes (Except.ok badModelOutput) attrCfg1)
      ("Total Revenue")) ("confidence") = 9/10 ∧
    readBreak (readAttr (extract_attributes (Except.ok badModelOutput) attrCfg1)
      ("Total Revenue")) ("text_clarity") = 0 ∧
    readBreak (readAttr (extract_attributes (Except.ok badModelOutput) attrCfg1)
      ("Total Revenue")) ("exact_match") = 0 ∧
    readBreak (readAttr (extract_attributes (Except.ok badModelOutput) attrCfg1)
      ("Total Revenue")) ("context_match") = 0 ∧
    readBreak (readAttr (extract_attributes (Except.ok badModelOutput) attrCfg1)
      ("Total Revenue")) ("format_validity") = 0 ∧
    ¬ (|readNum (readAttr (extract_attributes (Except.ok badModelOutput) attrCfg1)
          ("Total Revenue")) ("confidence") -
        weightedConfidence 0 0 0 0| < 1/1000000) := by
  refine ⟨rfl, rfl, rfl, rfl, rfl, rfl, ?_⟩
  rw [show readNum (readAttr (extract_attributes (Except.ok badModelOutput) attrCfg1)
        ("Total Revenue")) ("confidence") = 9/10 from rfl]
  unfold weightedConfidence
  rw [abs_of_nonneg (by norm_num)]
  norm_num

/-- C4 (amended): the weighted-confidence formula appears only as an
instruction to the model in the system prompt; `extract_attributes`
returns the parsed model output verbatim, so per-attribute confidences
and breakdowns are accepted as reported, with no validation or
recomputation by the system. -/
theorem c4_confidence_passthrough (cfg : List AttrConfig) (j : Json) (k : String) :
    extract_attributes (Except.ok j) cfg = j ∧
    readAttr (extract_attributes (Except.ok j) cfg) k = readAttr j k ∧
    readNum (readAttr (extract_attributes (Except.ok j) cfg) k) ("confidence") =
      readNum (readAttr j k) ("confidence") ∧
    readBreak (readAttr (extract_attributes (Except.ok j) cfg) k) ("text_clarity") =
      readBreak (readAttr j k) ("text_clarity") :=
  ⟨rfl, rfl, rfl, rfl⟩

/-- C5: when the model invocation fails with a transport/service error,
the fallback document's attribute mapping has exactly the schema's key
set (no missing, no extra, no duplicates), every attribute value is null
with confidence 0.0, and the metadata error field is set; the fallback is
returned normally, no exception propagates. -/
theorem c5_fallback_completeness (cfg : List AttrConfig) (e : String) :
    (∀ k0, k0 ∈ (extractedAttrs (extract_attributes (Except.error e) cfg)).map Prod.fst ↔
      k0 ∈ cfg.map AttrConfig.name) ∧
    ((extractedAttrs (extract_attributes (Except.error e) cfg)).map Prod.fst).Nodup ∧
    (∀ p ∈ extractedAttrs (extract_attributes (Except.error e) cfg),
      jGet p.2 ("value") = some Json.null ∧
      jGet p.2 ("confidence") = some (Json.num 0)) ∧
    metaError (extract_attributes (Except.error e) cfg) =
      some (Json.str "Extraction failed") := by
  have hinv := buildAttrDict_aux cfg [] (by simp) (by simp)
  have hea : extractedAttrs (extract_attributes (Except.error e) cfg) =
      cfg.foldl (fun d0 a => dictSet d0 a.name emptyAttrValue) [] := rfl
  rw [hea]
  refine ⟨fun k0 => ?_, hinv.2.1, fun p hp => ?_, rfl⟩
  · rw [hinv.1 k0]
    simp
  · rw [hinv.2.2 p hp]
    exact ⟨rfl, rfl⟩

/-- C5 witness: with a two-attribute schema and a failing invocation, the
fallback mapping contains the schema key `Report Year` and the metadata
error is set. -/
theorem c5_fallback_completeness_witness :
    ("Report Year" ∈ (extractedAttrs (extract_attributes (Except.error ("boom"))
      attrCfg2)).map Prod.fst) ∧
    metaError (extract_attributes (Except.error ("boom")) attrCfg2) =
      some (Json.str "Extraction failed") :=
  ⟨((c5_fallback_completeness attrCfg2 ("boom")).1 ("Report Year")).mpr (by decide),
   (c5_fallback_completeness attrCfg2 ("boom")).2.2.2⟩

/-- C6: batch processing returns exactly one entry per input key, in
submission order; a key whose unit of work fails (timeout or exception)
yields the placeholder failure carrying its basename, empty text,
confidence 0.0 and the triggering error, while every other key's entry is
exactly its own unit-of-work result, unaffected by the failure. -/
theorem c6_batch_isolation (runSingle : String → Except String ExtractionResult)
    (keys : List String) :
    (process_multiple_pdfs runSingle keys).length = keys.length ∧
    (∀ k e, (mkPlaceholder k e).filename = pyBasename k ∧
      (mkPlaceholder k e).text = [] ∧
      (mkPlaceholder k e).confidence_score = 0 ∧
      (mkPlaceholder k e).error = e) ∧
    ∀ i (h1 : i < keys.length) (h2 : i < (process_multiple_pdfs runSingle keys).length),
      (∀ e, runSingle keys[i] = Except.error e →
        (process_multiple_pdfs runSingle keys)[i] =
          BatchEntry.failure (mkPlaceholder keys[i] e)) ∧
      (∀ r, runSingle keys[i] = Except.ok r →
        (process_multiple_pdfs runSingle keys)[i] = BatchEntry.success keys[i] r) := by
  refine ⟨by simp [process_multiple_pdfs], fun k e => ⟨rfl, rfl, rfl, rfl⟩,
          fun i h1 h2 => ⟨fun e he => ?_, fun r hr => ?_⟩⟩
  · simp [process_multiple_pdfs, he]
  · simp [process_multiple_pdfs, hr]

/-- C6 witness: in a two-document batch whose second document fails, the
batch still has two entries, the second is the placeholder failure, and
the first is its own untouched result. -/
theorem c6_batch_isolation_witness :
    (process_multiple_pdfs demoRunSingle demoKeys).length = 2 ∧
    (process_multiple_pdfs demoRunSingle demoKeys).get ⟨1, by decide⟩ =
      BatchEntry.failure (mkPlaceholder ("bad.pdf") ("boom")) ∧
    (process_multiple_pdfs demoRunSingle demoKeys).get ⟨0, by decide⟩ =
      BatchEntry.success ("good.pdf") (init_result ("good.pdf")) := by
  refine ⟨(c6_batch_isolation demoRunSingle demoKeys).1, ?_, ?_⟩
  · exact ((c6_batch_isolation demoRunSingle demoKeys).2.2 1 (by decide) (by decide)).1
      ("boom") rfl
  · exact ((c6_batch_isolation demoRunSingle demoKeys).2.2 0 (by decide) (by decide)).2
      (init_result ("good.pdf")) (by rfl)

/-- C8 counterexample: the claimed thresholds do not match the UI
banding of `app.py` line 193: a document score of exactly 0.8 (claimed
"high" since 0.8 >= 0.8) is colored yellow (medium), and a score of 0.55
(claimed "low" since 0.55 < 0.6) is also colored yellow (medium). -/
theorem c8_counterexample :
    confidence_color (8/10) = "yellow" ∧ ((8 : ℚ)/10 ≥ 8/10) ∧
    confidence_color (11/20) = "yellow" ∧ ¬ ((11 : ℚ)/20 ≥ 6/10) := by
  refine ⟨?_, le_refl _, ?_, by norm_num⟩
  · unfold confidence_color
    rw [if_neg (by norm_num), if_pos (by norm_num)]
  · unfold confidence_color
    rw [if_neg (by norm_num), if_pos (by norm_num)]

/-- C8 (amended): the repository has two fixed, non-configurable quality
bandings.  The download-list coloring of `app.py` bands a per-document
score as green (high) iff score > 0.8, yellow (medium) iff 0.5 < score
<= 0.8, red (low) otherwise; the chatbot's `data_quality` bands the
average attribute confidence as high iff avg >= 0.8, medium iff 0.6 <=
avg < 0.8, low otherwise. -/
theorem c8_quality_banding (c : ℚ) :
    (confidence_color c = "green" ↔ 8/10 < c) ∧
    (confidence_color c = "yellow" ↔ 5/10 < c ∧ c ≤ 8/10) ∧
    (confidence_color c = "red" ↔ c ≤ 5/10) ∧
    (data_quality c = "high" ↔ 8/10 ≤ c) ∧
    (data_quality c = "medium" ↔ 6/10 ≤ c ∧ c < 8/10) ∧
    (data_quality c = "low" ↔ c < 6/10) := by
  unfold confidence_color data_quality
  split_ifs with h1 h2 h3 h4 h5 h6 h7 <;>
    refine ⟨?_, ?_, ?_, ?_, ?_, ?_⟩ <;>
    simp only [String.reduceEq, true_iff, false_iff, iff_true, iff_false, not_and,
               not_le, not_lt] <;>
    first
      | linarith
      | (intro hx; linarith)
      | (exact ⟨by linarith, by linarith⟩)

/-! Helper lemmas about the year-over-year consolidation. -/

theorem optSum_perm {l1 l2 : List (Option ℚ)} (h : l1.Perm l2) :
    optSum l1 = optSum l2 := by
  unfold optSum
  exact (h.filterMap id).sum_eq

theorem optMean_perm {l1 l2 : List (Option ℚ)} (h : l1.Perm l2) :
    optMean l1 = optMean l2 := by
  simp only [optMean]
  rw [(h.filterMap id).sum_eq, (h.filterMap id).length_eq]

theorem aggregateYear_perm (rows rows2 : List YoYRow) (h : rows.Perm rows2)
    (y : YearKey) : aggregateYear rows y = aggregateYear rows2 y := by
  simp only [aggregateYear]
  have hsub : (rows.filter (fun r => decide (r.report_year = some y))).Perm
      (rows2.filter (fun r => decide (r.report_year = some y))) := h.filter _
  rw [optSum_perm (hsub.map (fun r => r.total_revenue)),
      optSum_perm (hsub.map (fun r => r.net_income)),
      optMean_perm (hsub.map (fun r => r.total_assets)),
      optMean_perm (hsub.map (fun r => r.total_liabilities))]

theorem sortedYearKeys_perm (rows rows2 : List YoYRow) (h : rows.Perm rows2) :
    sortedYearKeys rows = sortedYearKeys rows2 := by
  unfold sortedYearKeys
  have hd : ((rows.filterMap (fun r => r.report_year)).dedup).Perm
      ((rows2.filterMap (fun r => r.report_year)).dedup) :=
    (h.filterMap _).dedup
  have hs : (List.insertionSort (fun a b => a ≤ b)
      ((rows.filterMap (fun r => r.report_year)).dedup)).Perm
      (List.insertionSort (fun a b => a ≤ b)
        ((rows2.filterMap (fun r => r.report_year)).dedup)) :=
    ((List.perm_insertionSort _ _).trans hd).trans
      (List.perm_insertionSort _ _).symm
  exact List.eq_of_perm_of_sorted hs
    (List.sorted_insertionSort _ _) (List.sorted_insertionSort _ _)

set_option maxRecDepth 40000 in
/-- C7 counterexample: a batch whose `Report Year` values are the strings
2021, 2022 and N/A: the non-numeric year is NOT excluded from grouping
(three group keys are formed), and the analysis aborts with the
`ValueError` of `int("N/A")` instead of producing a table. -/
theorem c7_counterexample :
    sortedYearKeys yoyBadYearRows
      = [yearStr ("2021").data, yearStr ("2022").data, yearStr ("N/A").data] ∧
    create_yoy_analysis yoyBadYearRows
      = Except.error ("invalid literal for int with base 10: N/A") := by
  exact ⟨by decide, by rfl⟩

/-- C7 (amended): an empty batch produces no year-over-year sheet at all
(the early guard); otherwise consolidation groups documents by the raw
`Report Year` cell (missing years are excluded; the year is coerced to
integer only when written out, so a non-numeric year aborts the sheet
with an error rather than being excluded); it sums the revenue-like
columns and averages the balance-sheet columns per year, computes the
percentage change between consecutive sorted years with the earliest
year emitted as absent; a non-empty batch with fewer than two distinct
years reports insufficient data; the worked example
[2021: 100, 2022: 150, 2023: 120] produces the growth series
[absent, +50 percent, -20 percent]; and the output is invariant under
reordering the input documents (hence identical on repeated runs). -/
theorem c7_yoy_consolidation :
    create_yoy_analysis [] = Except.ok YoYOutput.noSheet ∧
    (∀ rows : List YoYRow, rows ≠ [] → (sortedYearKeys rows).length < 2 →
      create_yoy_analysis rows = Except.ok YoYOutput.insufficient) ∧
    (∀ rows rows2 : List YoYRow, rows.Perm rows2 →
      create_yoy_analysis rows = create_yoy_analysis rows2) ∧
    create_yoy_analysis yoyExampleRows = Except.ok yoyExampleTable := by
  refine ⟨rfl, fun rows hne h => ?_, fun rows rows2 hp => ?_, ?_⟩
  · unfold create_yoy_analysis yoyFromYearly
    rw [if_neg hne, if_pos (by simpa using h)]
  · by_cases h0 : rows = []
    · have h02 : rows2 = [] := by
        rw [h0] at hp
        exact hp.symm.eq_nil
      rw [h0, h02]
    · have h02 : rows2 ≠ [] := by
        intro h2
        rw [h2] at hp
        exact h0 hp.eq_nil
      unfold create_yoy_analysis
      rw [if_neg h0, if_neg h02, sortedYearKeys_perm rows rows2 hp]
      exact congrArg yoyFromYearly (List.map_congr_left
        (fun y _ => by rw [aggregateYear_perm rows rows2 hp y]))
  · have hkeys : sortedYearKeys yoyExampleRows
        = [yearNum 2021, yearNum 2022, yearNum 2023] := by decide
    have ha1 : aggregateYear yoyExampleRows (yearNum 2021) = ⟨100, 100, 100, 100⟩ := by
      have hf : yoyExampleRows.filter (fun r => decide (r.report_year = some (yearNum 2021)))
          = [mkYoYRow (some (yearNum 2021)) 100] := by decide
      simp only [aggregateYear, hf]
      norm_num [mkYoYRow, optSum, optMean, List.filterMap_cons, List.filterMap_nil, id]
    have ha2 : aggregateYear yoyExampleRows (yearNum 2022) = ⟨150, 150, 150, 150⟩ := by
      have hf : yoyExampleRows.filter (fun r => decide (r.report_year = some (yearNum 2022)))
          = [mkYoYRow (some (yearNum 2022)) 150] := by decide
      simp only [aggregateYear, hf]
      norm_num [mkYoYRow, optSum, optMean, List.filterMap_cons, List.filterMap_nil, id]
    have ha3 : aggregateYear yoyExampleRows (yearNum 2023) = ⟨120, 120, 120, 120⟩ := by
      have hf : yoyExampleRows.filter (fun r => decide (r.report_year = some (yearNum 2023)))
          = [mkYoYRow (some (yearNum 2023)) 120] := by decide
      simp only [aggregateYear, hf]
      norm_num [mkYoYRow, optSum, optMean, List.filterMap_cons, List.filterMap_nil, id]
    have hg1 : pctAgg (⟨100, 100, 100, 100⟩ : YearAgg) ⟨150, 150, 150, 150⟩
        = ⟨1/2, 1/2, 1/2, 1/2⟩ := by
      simp only [pctAgg, pctQ]
      norm_num
    have hg2 : pctAgg (⟨150, 150, 150, 150⟩ : YearAgg) ⟨120, 120, 120, 120⟩
        = ⟨-1/5, -1/5, -1/5, -1/5⟩ := by
      simp only [pctAgg, pctQ]
      norm_num
    calc create_yoy_analysis yoyExampleRows
        = yoyFromYearly [(yearNum 2021, ⟨100, 100, 100, 100⟩),
            (yearNum 2022, ⟨150, 150, 150, 150⟩),
            (yearNum 2023, ⟨120, 120, 120, 120⟩)] := by
          unfold create_yoy_analysis
          rw [if_neg (by decide), hkeys]
          simp only [List.map_cons, List.map_nil, ha1, ha2, ha3]
      _ = Except.ok (YoYOutput.table
            [(2021, ⟨100, 100, 100, 100⟩), (2022, ⟨150, 150, 150, 150⟩),
             (2023, ⟨120, 120, 120, 120⟩)]
            [(2022, pctAgg ⟨100, 100, 100, 100⟩ ⟨150, 150, 150, 150⟩),
             (2023, pctAgg ⟨150, 150, 150, 150⟩ ⟨120, 120, 120, 120⟩)]) := by rfl
      _ = Except.ok yoyExampleTable := by
          rw [hg1, hg2]
          rfl

/-- C7 witness: a non-empty single-year batch reports insufficient data,
and reversing the worked example's document order leaves the
consolidated output unchanged. -/
theorem c7_yoy_consolidation_witness :
    create_yoy_analysis [mkYoYRow (some (yearNum 2021)) 100]
      = Except.ok YoYOutput.insufficient ∧
    create_yoy_analysis yoyExampleRows.reverse = create_yoy_analysis yoyExampleRows :=
  ⟨c7_yoy_consolidation.2.1 [mkYoYRow (some (yearNum 2021)) 100] (by decide) (by decide),
   c7_yoy_consolidation.2.2.1 yoyExampleRows.reverse yoyExampleRows
     (List.reverse_perm yoyExampleRows)⟩
